import Mathlib

/-!
Verification development for the Surfpool crash-reproduction harness.

The repository consists of:
* a Step Runner CLI (`runTransaction.ts`) that loads a transaction-builder
  module, races its `executeSkill(blockhash)` promise against a timeout, and
  prints a single structured JSON result line to standard output;
* three transaction builders (`tx_02_raydium_swap.ts`, `tx_05_raydium_swap.ts`
  and the Meteora DLMM builder) exposing `executeSkill`;
* a pool-discovery script with a bounded retry loop for Meteora pools;
* a replay driver (documented in the repository but whose code, `replay.py`,
  is not part of the sources here) that runs five steps in order.

The definitions below are shallow embeddings, translated from the TypeScript
sources.  Machine strings are `String`, byte buffers are `List Nat`, and the
external SDK calls (Raydium/Meteora instruction builders, account decoders,
PDA derivation) are taken as explicit function parameters or opaque string
constructors, since the spec treats them as black-box capabilities.
-/

namespace Surfpool

/-! ## Basic JSON / error data model for the Step Runner (runTransaction.ts) -/

/-- One sub-error of a Bun `AggregateError` (compilation-error aggregate).
`message`, `line`, `column` and `file` model the optional JavaScript
properties `e?.message`, `e?.line`, `e?.column`, `e?.file`; `fallback`
models the value of `String(e)` used when `message` is absent or empty. -/
structure SubError where
  message : Option String
  line : Option Nat
  column : Option Nat
  file : Option String
  fallback : String
deriving DecidableEq

/-- Payload of a thrown `AggregateError` (`error.name === 'AggregateError'`
and `Array.isArray(error.errors)`). -/
structure AggregateErrorData where
  message : Option String
  errors : List SubError
deriving DecidableEq

/-- Payload of an ordinary thrown `Error` (the `error instanceof Error`
branch); `stack` models the optional `error.stack` property. -/
structure PlainErrorData where
  name : String
  message : String
  stack : Option String
deriving DecidableEq

/-- A JavaScript thrown value, as discriminated by the catch handler in
`runTransaction.ts`: an aggregate error, a plain `Error`, a thrown string,
or anything else (carried as its `String(error)` rendering). -/
inductive JsError where
  | aggregate : AggregateErrorData → JsError
  | plain : PlainErrorData → JsError
  | strVal : String → JsError
  | otherVal : String → JsError
deriving DecidableEq

/-- One entry of the `errors:` list in the failure JSON printed by the
runner (`{message, line, column, file}`). -/
structure SubErrorOut where
  message : String
  line : Option Nat
  column : Option Nat
  file : Option String
deriving DecidableEq

/-- The failure JSON object printed by the runner:
`{success: false, error, details, type, errors}`. `errors` is `none` when
the thrown value had no `errors` array (JSON.stringify drops the key). -/
structure JsonFailure where
  success : Bool
  error : String
  details : String
  type : String
  errors : Option (List SubErrorOut)
deriving DecidableEq

/-- JavaScript `x || d` for an optional string property: the default is used
when the property is missing or the empty string (both falsy). -/
def orDefault (s : Option String) (d : String) : String :=
  match s with
  | some m => if m = "" then d else m
  | none => d

/-- `String.intercalate "\n"`, as used for `errorDetails.join('\n')`. -/
def joinLines (l : List String) : String :=
  String.intercalate "\n" l

/-- `error.toString()` for a plain `Error`: `"Name: message"`. -/
def plainToString (p : PlainErrorData) : String :=
  p.name ++ ": " ++ p.message

/-- `String(error)` / `console.error(error)` rendering of a thrown value
(the raw diagnostic written to standard error by the catch handler). -/
def jsErrorToString : JsError → String
  | .aggregate a => "AggregateError: " ++ orDefault a.message ""
  | .plain p => plainToString p
  | .strVal s => s
  | .otherVal r => r

/-- The catch handler of `runTransaction.ts` (lines 108–152): classify the
thrown value and build the failure JSON object. -/
def describeError (e : JsError) : JsonFailure :=
  match e with
  | .aggregate a =>
      { success := false
        error := orDefault a.message "Multiple errors occurred"
        details := joinLines (a.errors.map (fun er => orDefault er.message er.fallback))
        type := "AggregateError"
        errors := some (a.errors.map (fun er =>
          { message := orDefault er.message er.fallback
            line := er.line
            column := er.column
            file := er.file })) }
  | .plain p =>
      { success := false
        error := p.message
        details := joinLines [match p.stack with | some st => st | none => plainToString p]
        type := if p.name = "" then "UnknownError" else p.name
        errors := none }
  | .strVal s =>
      { success := false
        error := s
        details := joinLines [s]
        type := "UnknownError"
        errors := none }
  | .otherVal r =>
      { success := false
        error := "An unknown error occurred."
        details := joinLines [r]
        type := "UnknownError"
        errors := none }

/-! ## The Step Runner CLI (`runTransaction`) -/

/-- The three positional CLI arguments of the runner; `none` models a missing
`process.argv` entry. -/
structure RunnerArgs where
  filePath : Option String
  timeoutMsStr : Option String
  latestBlockhash : Option String
deriving DecidableEq

/-- Behaviour of the dynamically imported module: the import can throw, the
module can lack an `executeSkill` function, or `executeSkill(blockhash)` can
resolve or reject at some (discrete, millisecond) time, or never settle. -/
inductive ModuleBehavior where
  | importThrows : JsError → ModuleBehavior
  | missingExecuteSkill : ModuleBehavior
  | resolvesAt : String → Nat → ModuleBehavior
  | rejectsAt : JsError → Nat → ModuleBehavior
  | neverSettles : ModuleBehavior
deriving DecidableEq

/-- One line printed to standard output by the runner: either the success
JSON `{success: true, serialized_tx}` or the failure JSON. -/
inductive StdoutLine where
  | success : String → StdoutLine
  | failure : JsonFailure → StdoutLine
deriving DecidableEq

/-- Observable result of one runner invocation: the JSON lines printed to
standard output, the diagnostic lines printed to standard error, the process
exit code, and (when the race ran) the time at which the race settled. -/
structure RunnerResult where
  stdout : List StdoutLine
  stderr : List String
  exitCode : Nat
  settledAt : Option Nat
deriving DecidableEq

/-- JavaScript falsiness of a destructured `process.argv` entry: missing
(`undefined`) or the empty string. -/
def isFalsy : Option String → Bool
  | none => true
  | some s => s == ""

/-- The argument check `if (!filePath || !timeoutMsStr || !latestBlockhash)`. -/
def argsMissing (args : RunnerArgs) : Bool :=
  isFalsy args.filePath || isFalsy args.timeoutMsStr || isFalsy args.latestBlockhash

/-- Accumulate leading decimal digits; `seen` records whether at least one
digit has been read (otherwise the result is `NaN`, modelled as `none`). -/
def parseIntCore : List Char → Nat → Bool → Option Nat
  | [], acc, seen => if seen then some acc else none
  | c :: rest, acc, seen =>
      if c.isDigit then parseIntCore rest (acc * 10 + (c.toNat - 48)) true
      else if seen then some acc else none

/-- JavaScript `parseInt(s, 10)`: an optional sign followed by leading
digits; `none` models `NaN`. -/
def parseIntJs (s : String) : Option Int :=
  match s.toList with
  | '-' :: rest => (parseIntCore rest 0 false).map (fun n => -(n : Int))
  | '+' :: rest => (parseIntCore rest 0 false).map (fun n => (n : Int))
  | cs => (parseIntCore cs 0 false).map (fun n => (n : Int))

/-- The effective `setTimeout` delay: `NaN` and negative delays are treated
as `0` by the JavaScript timer. -/
def effectiveDelay (t : Option Int) : Nat :=
  match t with
  | none => 0
  | some n => n.toNat

/-- The `Error('Transaction execution timed out.')` rejected by the timer of
the `Promise.race`.  The runtime-generated stack is modelled canonically. -/
def timeoutError : JsError :=
  JsError.plain
    { name := "Error"
      message := "Transaction execution timed out."
      stack := some "Error: Transaction execution timed out." }

/-- The `Error('executeSkill function not found in the provided module.')`
thrown when the imported module lacks the capability. -/
def missingSkillError : JsError :=
  JsError.plain
    { name := "Error"
      message := "executeSkill function not found in the provided module."
      stack := none }

/-- The usage line written to standard error when an argument is missing. -/
def usageLine : String :=
  "Usage: bun runTransaction.ts <file> <timeoutMs> <latestBlockhash>"

/-- Result of the catch branch: the error is logged raw to standard error,
the failure JSON is printed to standard output, and `process.exit(1)`. -/
def failResult (e : JsError) (settled : Option Nat) : RunnerResult :=
  { stdout := [StdoutLine.failure (describeError e)]
    stderr := [jsErrorToString e]
    exitCode := 1
    settledAt := settled }

/-- Shallow embedding of `runTransaction` (runner/runTransaction.ts).
`lateness` models by how much the wall clock can delay the `setTimeout`
callback beyond its requested delay (a timer never fires early, so the timer
promise rejects at `effectiveDelay + lateness`).  The race settles with the
module promise when it settles no later than the timer fires. -/
def runTransaction (args : RunnerArgs) (behavior : ModuleBehavior) (lateness : Nat) :
    RunnerResult :=
  if argsMissing args then
    { stdout := [], stderr := [usageLine], exitCode := 1, settledAt := none }
  else
    let timeoutMs := parseIntJs (args.timeoutMsStr.getD "")
    let fireTime := effectiveDelay timeoutMs + lateness
    match behavior with
    | .importThrows e => failResult e none
    | .missingExecuteSkill => failResult missingSkillError none
    | .resolvesAt tx t =>
        if t ≤ fireTime then
          { stdout := [StdoutLine.success tx], stderr := [], exitCode := 0,
            settledAt := some t }
        else failResult timeoutError (some fireTime)
    | .rejectsAt e t =>
        if t ≤ fireTime then failResult e (some t)
        else failResult timeoutError (some fireTime)
    | .neverSettles => failResult timeoutError (some fireTime)

/-! ## Transaction data model (@solana/web3.js, treated at record level)

`PubKey` is the base58 rendering of a public key.  `tx.serialize({...})
.toString('base64')` is modelled by the `SerializedTx` record: the base64
encoding of the wire bytes is injective, so the properties the spec states
about the payload are stated on the structured value it encodes. -/

/-- A public key, identified by its base58 string. -/
abbrev PubKey := String

/-- An account entry of a `TransactionInstruction` (`{pubkey, isSigner,
isWritable}`). -/
structure AccountMeta where
  pubkey : PubKey
  isSigner : Bool
  isWritable : Bool
deriving DecidableEq

/-- A `TransactionInstruction`: program id, ordered account keys, data. -/
structure Instruction where
  programId : PubKey
  keys : List AccountMeta
  data : List Nat
deriving DecidableEq

/-- A `Transaction` as built by the skill scripts: `recentBlockhash` and
`feePayer` are set in the constructor, instructions by `tx.add` in order. -/
structure Transaction where
  recentBlockhash : String
  feePayer : PubKey
  instructions : List Instruction
deriving DecidableEq

/-- The options object passed to `tx.serialize`. -/
structure SerializeConfig where
  requireAllSignatures : Bool
  verifySignatures : Bool
deriving DecidableEq

/-- The value returned by a builder: the serialization (with its options) of
a transaction, base64-encoded on the wire. -/
structure SerializedTx where
  config : SerializeConfig
  tx : Transaction
deriving DecidableEq

/-! ### Well-known program ids and SPL helper instructions

These model the out-of-scope `@solana/spl-token` and `@solana/web3.js`
instruction builders at record level: fixed program ids, the documented
account orders, and a discriminator tag as data. -/

def systemProgramId : PubKey := "11111111111111111111111111111111"

def tokenProgramId : PubKey := "TokenkegQfeZyiNwAJbNbGKPFXCWuBvf9Ss623VQ5DA"

def associatedTokenProgramId : PubKey := "ATokenGPvbdGVxr1b2hvZbsiqW5xWH25efTNsLJA8knL"

def computeBudgetProgramId : PubKey := "ComputeBudget111111111111111111111111111111"

def nativeMint : PubKey := "So11111111111111111111111111111111111111112"

def usdcMint : PubKey := "EPjFWdd5AufqSSqeM2qN1xzybapC8G4wEGGkZwyTDt1v"

/-- Fallback payer from `process.env.PAYER_PUBKEY ?? 'Hykotrn...'`. -/
def defaultPayerPubkey : PubKey := "HykotrnSrgYNACXfbNiS64zPzZGbyU94bxx9SWM1jMVR"

/-- `ComputeBudgetProgram.setComputeUnitLimit({units})`. -/
def setComputeUnitLimit (units : Nat) : Instruction :=
  { programId := computeBudgetProgramId, keys := [], data := [2, units] }

/-- `ComputeBudgetProgram.setComputeUnitPrice({microLamports})`. -/
def setComputeUnitPrice (microLamports : Nat) : Instruction :=
  { programId := computeBudgetProgramId, keys := [], data := [3, microLamports] }

/-- `SystemProgram.transfer({fromPubkey, toPubkey, lamports})`. -/
def systemTransfer (source dest : PubKey) (lamports : Nat) : Instruction :=
  { programId := systemProgramId
    keys := [⟨source, true, true⟩, ⟨dest, false, true⟩]
    data := [2, lamports] }

/-- `createSyncNativeInstruction(account, programId)`. -/
def syncNativeInstruction (account : PubKey) (tokenProg : PubKey) : Instruction :=
  { programId := tokenProg, keys := [⟨account, false, true⟩], data := [17] }

/-- `createCloseAccountInstruction(account, destination, owner)`. -/
def closeAccountInstruction (account dest owner : PubKey) : Instruction :=
  { programId := tokenProgramId
    keys := [⟨account, false, true⟩, ⟨dest, false, true⟩, ⟨owner, true, false⟩]
    data := [9] }

/-- `createAssociatedTokenAccountIdempotentInstruction(payer, ata, owner,
mint, tokenProgram)`. -/
def createAtaIdempotentInstruction (payer ata owner mint tokenProg : PubKey) :
    Instruction :=
  { programId := associatedTokenProgramId
    keys := [⟨payer, true, true⟩, ⟨ata, false, true⟩, ⟨owner, false, false⟩,
             ⟨mint, false, false⟩, ⟨systemProgramId, false, false⟩,
             ⟨tokenProg, false, false⟩]
    data := [1] }

/-- `getAssociatedTokenAddressSync(mint, owner, allowOwnerOffCurve,
programId)`: an opaque, injective address derivation. -/
def getAtaWithProgram (mint owner : PubKey) (allowOwnerOffCurve : Bool)
    (tokenProg : PubKey) : PubKey :=
  "ata(" ++ mint ++ "," ++ owner ++ "," ++ (if allowOwnerOffCurve then "1" else "0")
    ++ "," ++ tokenProg ++ ")"

/-- Two-argument `getAssociatedTokenAddressSync(mint, owner)`, defaulting to
the classic token program. -/
def getAta (mint owner : PubKey) : PubKey :=
  getAtaWithProgram mint owner false tokenProgramId

/-- `PublicKey.findProgramAddressSync(seeds, programId)[0]`: an opaque PDA
derivation. -/
def findProgramAddress (seeds : List String) (programOwner : PubKey) : PubKey :=
  "pda(" ++ String.intercalate "," seeds ++ ";" ++ programOwner ++ ")"

/-! ## Raydium swap builders (tx_02_raydium_swap.ts, tx_05_raydium_swap.ts) -/

/-- The `RAYDIUM` record from `dex_env` (produced by the discovery script's
`discoverRaydium`). -/
structure RaydiumEnv where
  programId : PubKey
  ammConfig : PubKey
  poolState : PubKey
  token0Mint : PubKey
  token1Mint : PubKey
  token0Vault : PubKey
  token1Vault : PubKey
  token0Program : PubKey
  token1Program : PubKey
  observationKey : PubKey
  authority : PubKey
deriving DecidableEq

/-- One entry of the account array returned by the SDK's
`getSwapBaseInputInstruction`; the JavaScript value may lack a usable
`pubkey` (`!meta?.pubkey`), modelled by `pubkey : Option PubKey`; an absent
entry altogether is `none` at the list level. -/
structure RawAccountMeta where
  pubkey : Option PubKey
  isSigner : Bool
  isWritable : Bool
deriving DecidableEq

/-- `meta?.pubkey` for an entry that may itself be missing. -/
def metaPubkey (m : Option RawAccountMeta) : Option PubKey :=
  m.bind (fun mm => mm.pubkey)

/-- The named arguments of `getSwapBaseInputInstruction`. -/
structure SwapBaseInputArgs where
  payer : PubKey
  authority : PubKey
  ammConfig : PubKey
  poolState : PubKey
  inputTokenAccount : PubKey
  outputTokenAccount : PubKey
  inputVault : PubKey
  outputVault : PubKey
  inputTokenProgram : PubKey
  outputTokenProgram : PubKey
  inputTokenMint : PubKey
  outputTokenMint : PubKey
  observationState : PubKey
  amountIn : Nat
  minimumAmountOut : Nat
deriving DecidableEq

/-- The raw instruction returned by the Raydium SDK: a program address
(possibly falsy), an account array, and data bytes. -/
structure RawSwapInstruction where
  programAddress : Option PubKey
  accounts : List (Option RawAccountMeta)
  data : List Nat
deriving DecidableEq

/-- Normalisation applied to a present account entry in both builders:
an account equal to the agent is forced to signer+writable, otherwise the
SDK-reported flags are kept. -/
def normalizeKey (agent : PubKey) (mm : RawAccountMeta) (pk : PubKey) : AccountMeta :=
  { pubkey := pk
    isSigner := (pk == agent) || mm.isSigner
    isWritable := (pk == agent) || mm.isWritable }

/-- One step of the `rawSwapIx.accounts.map((meta, index) => ...)` of
tx_02: a missing entry at index 0 is replaced by the agent payer account, a
missing entry elsewhere throws. -/
def tx02SwapKeyAt (agent : PubKey) (i : Nat) (m : Option RawAccountMeta) :
    Except String AccountMeta :=
  match m with
  | some mm =>
      match mm.pubkey with
      | some pk => Except.ok (normalizeKey agent mm pk)
      | none =>
          if i = 0 then Except.ok { pubkey := agent, isSigner := true, isWritable := true }
          else Except.error s!"Raydium swap requires account index {i}, but builder returned none"
  | none =>
      if i = 0 then Except.ok { pubkey := agent, isSigner := true, isWritable := true }
      else Except.error s!"Raydium swap requires account index {i}, but builder returned none"

/-- The indexed map of tx_02 over the account array, starting at index `i`;
as in JavaScript, the first throw (leftmost failing index) wins. -/
def tx02SwapKeysFrom (agent : PubKey) (i : Nat) :
    List (Option RawAccountMeta) → Except String (List AccountMeta)
  | [] => Except.ok []
  | m :: rest =>
      match tx02SwapKeyAt agent i m with
      | Except.error e => Except.error e
      | Except.ok k =>
          match tx02SwapKeysFrom agent (i + 1) rest with
          | Except.error e => Except.error e
          | Except.ok ks => Except.ok (k :: ks)

/-- The `swapKeys` computation of tx_02 (lines 82–98). -/
def tx02SwapKeys (agent : PubKey) (accounts : List (Option RawAccountMeta)) :
    Except String (List AccountMeta) :=
  tx02SwapKeysFrom agent 0 accounts

/-- The `swapKeys` computation of tx_05 (lines 81–91): entries without a
pubkey are silently filtered out, the rest are normalised. -/
def tx05SwapKeys (agent : PubKey) :
    List (Option RawAccountMeta) → List AccountMeta
  | [] => []
  | m :: rest =>
      match m with
      | some mm =>
          match mm.pubkey with
          | some pk => normalizeKey agent mm pk :: tx05SwapKeys agent rest
          | none => tx05SwapKeys agent rest
      | none => tx05SwapKeys agent rest

/-- `Except.isOk`-style discriminator used to state "raises an error". -/
def isErr {α : Type} : Except String α → Bool
  | Except.error _ => true
  | Except.ok _ => false

/-- Shallow embedding of `executeSkill` of tx_02_raydium_swap.ts.  The
`dex_env` record and the SDK's `getSwapBaseInputInstruction` are external
inputs; thrown string errors are `Except.error`.  The `tx.add` sequence is
rendered as the ordered instruction list of the resulting transaction. -/
def tx02ExecuteSkill (raydium : RaydiumEnv) (payerEnvVar : Option PubKey)
    (getSwapBaseInputInstruction : SwapBaseInputArgs → RawSwapInstruction)
    (blockhash : String) : Except String SerializedTx :=
  let agentPubkey := payerEnvVar.getD defaultPayerPubkey
  let inputMintArg := usdcMint
  let inputIsToken0 := raydium.token0Mint == inputMintArg
  let inputVault := if inputIsToken0 then raydium.token0Vault else raydium.token1Vault
  let outputVault := if inputIsToken0 then raydium.token1Vault else raydium.token0Vault
  let inputTokenProgram := if inputIsToken0 then raydium.token0Program else raydium.token1Program
  let outputTokenProgram := if inputIsToken0 then raydium.token1Program else raydium.token0Program
  let inputTokenMint := if inputIsToken0 then raydium.token0Mint else raydium.token1Mint
  let outputTokenMint := if inputIsToken0 then raydium.token1Mint else raydium.token0Mint
  let inAta := getAta inputTokenMint agentPubkey
  let outAta := getAta outputTokenMint agentPubkey
  let wrapIxs :=
    if outputTokenMint == nativeMint then
      [systemTransfer agentPubkey outAta 1, syncNativeInstruction outAta tokenProgramId]
    else []
  let rawSwapIx := getSwapBaseInputInstruction
    { payer := agentPubkey
      authority := raydium.authority
      ammConfig := raydium.ammConfig
      poolState := raydium.poolState
      inputTokenAccount := inAta
      outputTokenAccount := outAta
      inputVault := inputVault
      outputVault := outputVault
      inputTokenProgram := inputTokenProgram
      outputTokenProgram := outputTokenProgram
      inputTokenMint := inputTokenMint
      outputTokenMint := outputTokenMint
      observationState := raydium.observationKey
      amountIn := 5000000
      minimumAmountOut := 0 }
  match rawSwapIx.programAddress with
  | none => Except.error "Raydium swap builder returned empty programAddress"
  | some progAddr =>
      match tx02SwapKeys agentPubkey rawSwapIx.accounts with
      | Except.error e => Except.error e
      | Except.ok swapKeys =>
          let swapIx : Instruction :=
            { programId := progAddr, keys := swapKeys, data := rawSwapIx.data }
          let closeIxs :=
            if outputTokenMint == nativeMint then
              [closeAccountInstruction outAta agentPubkey agentPubkey]
            else []
          Except.ok
            { config := { requireAllSignatures := false, verifySignatures := false }
              tx :=
                { recentBlockhash := blockhash
                  feePayer := agentPubkey
                  instructions :=
                    [setComputeUnitLimit 500000, setComputeUnitPrice 200000,
                     createAtaIdempotentInstruction agentPubkey inAta agentPubkey
                       inputTokenMint inputTokenProgram,
                     createAtaIdempotentInstruction agentPubkey outAta agentPubkey
                       outputTokenMint outputTokenProgram]
                    ++ wrapIxs ++ [swapIx] ++ closeIxs } }

/-- Shallow embedding of `executeSkill` of tx_05_raydium_swap.ts.  Input is
wSOL, the SOL wrap and the close of the wrapped account are unconditional,
and missing account entries are filtered, never fatal. -/
def tx05ExecuteSkill (raydium : RaydiumEnv) (payerEnvVar : Option PubKey)
    (getSwapBaseInputInstruction : SwapBaseInputArgs → RawSwapInstruction)
    (blockhash : String) : Except String SerializedTx :=
  let agentPubkey := payerEnvVar.getD defaultPayerPubkey
  let inputMintArg := nativeMint
  let inputIsToken0 := raydium.token0Mint == inputMintArg
  let inputVault := if inputIsToken0 then raydium.token0Vault else raydium.token1Vault
  let outputVault := if inputIsToken0 then raydium.token1Vault else raydium.token0Vault
  let inputTokenProgram := if inputIsToken0 then raydium.token0Program else raydium.token1Program
  let outputTokenProgram := if inputIsToken0 then raydium.token1Program else raydium.token0Program
  let inputTokenMint := if inputIsToken0 then raydium.token0Mint else raydium.token1Mint
  let outputTokenMint := if inputIsToken0 then raydium.token1Mint else raydium.token0Mint
  let inAta := getAta inputTokenMint agentPubkey
  let outAta := getAta outputTokenMint agentPubkey
  let rawSwapIx := getSwapBaseInputInstruction
    { payer := agentPubkey
      authority := raydium.authority
      ammConfig := raydium.ammConfig
      poolState := raydium.poolState
      inputTokenAccount := inAta
      outputTokenAccount := outAta
      inputVault := inputVault
      outputVault := outputVault
      inputTokenProgram := inputTokenProgram
      outputTokenProgram := outputTokenProgram
      inputTokenMint := inputTokenMint
      outputTokenMint := outputTokenMint
      observationState := raydium.observationKey
      amountIn := 50000000
      minimumAmountOut := 0 }
  match rawSwapIx.programAddress with
  | none => Except.error "Raydium swap builder returned empty programAddress"
  | some progAddr =>
      let swapKeys := tx05SwapKeys agentPubkey rawSwapIx.accounts
      let swapIx : Instruction :=
        { programId := progAddr, keys := swapKeys, data := rawSwapIx.data }
      Except.ok
        { config := { requireAllSignatures := false, verifySignatures := false }
          tx :=
            { recentBlockhash := blockhash
              feePayer := agentPubkey
              instructions :=
                [setComputeUnitLimit 600000, setComputeUnitPrice 150000,
                 createAtaIdempotentInstruction agentPubkey inAta agentPubkey
                   inputTokenMint inputTokenProgram,
                 createAtaIdempotentInstruction agentPubkey outAta agentPubkey
                   outputTokenMint outputTokenProgram,
                 systemTransfer agentPubkey inAta 50000000,
                 syncNativeInstruction inAta tokenProgramId,
                 swapIx,
                 closeAccountInstruction inAta agentPubkey agentPubkey] } }

/-! ## Meteora DLMM swap builder (the third skill script) -/

/-- The `METEORA` record from `dex_env`. -/
structure MeteoraEnv where
  programId : PubKey
  lbPair : PubKey
  memoProgram : PubKey
  binArrays : List PubKey
deriving DecidableEq

/-- `connection.getAccountInfo` result: raw data bytes and owner program. -/
structure AccountInfoModel where
  data : List Nat
  owner : PubKey
deriving DecidableEq

/-- The fields of the decoded `LbPair` account used by the builder. -/
structure LbPairState where
  tokenXMint : PubKey
  tokenYMint : PubKey
  reserveX : PubKey
  reserveY : PubKey
  oracle : PubKey
deriving DecidableEq

/-- The arguments of `getSwap2InstructionDataEncoder().encode`: amounts and
the `remainingAccountsInfo` slices `(accountsType, length)`. -/
structure Swap2Args where
  amountIn : Nat
  minAmountOut : Nat
  slices : List (Nat × Nat)
deriving DecidableEq

/-- `AccountsType.TransferHookX` / `TransferHookY` discriminants. -/
def transferHookX : Nat := 0
def transferHookY : Nat := 1

/-- Shallow embedding of `executeSkill` of the Meteora DLMM script.  The
chain (`connection.getAccountInfo`), the account decoder and the instruction
data encoder are external capabilities passed as functions. -/
def meteoraExecuteSkill (meteora : MeteoraEnv) (payerEnvVar : Option PubKey)
    (chain : PubKey → Option AccountInfoModel)
    (decodeLbPair : List Nat → LbPairState)
    (encodeSwap2 : Swap2Args → List Nat)
    (blockhash : String) : Except String SerializedTx :=
  let agentPubkey := payerEnvVar.getD defaultPayerPubkey
  let programId := meteora.programId
  let lbPairAddr := meteora.lbPair
  match chain lbPairAddr with
  | none => Except.error "LB pair not found on RPC"
  | some lbPairInfo =>
      let lb := decodeLbPair lbPairInfo.data
      let swapYtoX := lb.tokenXMint == nativeMint
      let inMint := if swapYtoX then lb.tokenYMint else lb.tokenXMint
      let outMint := if swapYtoX then lb.tokenXMint else lb.tokenYMint
      let amountIn := 5000000
      match chain lb.tokenXMint, chain lb.tokenYMint with
      | some mintXInfo, some mintYInfo =>
          let tokenXProgram := mintXInfo.owner
          let tokenYProgram := mintYInfo.owner
          let inProgramId := if inMint == lb.tokenXMint then tokenXProgram else tokenYProgram
          let outProgramId := if outMint == lb.tokenXMint then tokenXProgram else tokenYProgram
          let inAta := getAtaWithProgram inMint agentPubkey false inProgramId
          let outAta := getAtaWithProgram outMint agentPubkey false outProgramId
          let wrapIxs :=
            if inMint == nativeMint then
              [systemTransfer agentPubkey inAta amountIn,
               syncNativeInstruction inAta inProgramId]
            else []
          let eventAuthority := findProgramAddress ["__event_authority"] programId
          let bitmapExt := findProgramAddress ["bitmap", lbPairAddr] programId
          let memoProgram := meteora.memoProgram
          let remaining := (meteora.binArrays.take 4).map
            (fun pk => ({ pubkey := pk, isSigner := false, isWritable := true } : AccountMeta))
          let swapData := encodeSwap2
            { amountIn := amountIn
              minAmountOut := 0
              slices := [(transferHookX, 0), (transferHookY, 0)] }
          let swapIx : Instruction :=
            { programId := programId
              keys :=
                [⟨lbPairAddr, false, true⟩, ⟨bitmapExt, false, false⟩,
                 ⟨lb.reserveX, false, true⟩, ⟨lb.reserveY, false, true⟩,
                 ⟨inAta, false, true⟩, ⟨outAta, false, true⟩,
                 ⟨lb.tokenXMint, false, false⟩, ⟨lb.tokenYMint, false, false⟩,
                 ⟨lb.oracle, false, true⟩, ⟨inAta, false, true⟩,
                 ⟨agentPubkey, true, false⟩, ⟨tokenXProgram, false, false⟩,
                 ⟨tokenYProgram, false, false⟩, ⟨memoProgram, false, false⟩,
                 ⟨eventAuthority, false, false⟩, ⟨programId, false, false⟩]
                ++ remaining
              data := swapData }
          let closeIxs :=
            if inMint == nativeMint then
              [closeAccountInstruction inAta agentPubkey agentPubkey]
            else []
          Except.ok
            { config := { requireAllSignatures := false, verifySignatures := false }
              tx :=
                { recentBlockhash := blockhash
                  feePayer := agentPubkey
                  instructions :=
                    [setComputeUnitLimit 800000, setComputeUnitPrice 250000,
                     createAtaIdempotentInstruction agentPubkey inAta agentPubkey
                       inMint inProgramId,
                     createAtaIdempotentInstruction agentPubkey outAta agentPubkey
                       outMint outProgramId]
                    ++ wrapIxs ++ [swapIx] ++ closeIxs } }
      | _, _ => Except.error "Mint accounts missing"

/-! ## Meteora pool-discovery retry loop (discovery script, `main`) -/

/-- `const MAX_RETRIES = 10`. -/
def MAX_RETRIES : Nat := 10

/-- `const RETRY_DELAY_MS = 1000`. -/
def RETRY_DELAY_MS : Nat := 1000

/-- Observable events of the retry loop: the `k`-th attempt (0-based) on a
candidate pool, and a sleep of `ms` milliseconds between failed attempts. -/
inductive RetryEvent where
  | attempt : String → Nat → RetryEvent
  | delay : Nat → RetryEvent
deriving DecidableEq

/-- Whether an event is an attempt. -/
def isAttemptEvent : RetryEvent → Bool
  | .attempt _ _ => true
  | .delay _ => false

/-- Whether an event is an attempt that succeeds under the given success
predicate (`DLMM.create` together with the bin-array fetch not throwing). -/
def successfulAttempt (ok : String → Nat → Bool) : RetryEvent → Bool
  | .attempt c k => ok c k
  | .delay _ => false

/-- The per-candidate `while (retryCount < MAX_RETRIES && !lbPairFound)`
loop, with `remaining = MAX_RETRIES - retryCount` as structural fuel.
On success the loop breaks; on failure the counter is incremented and, when
further attempts remain, the loop sleeps `RETRY_DELAY_MS` and retries.
Returns the event trace and whether the candidate was found. -/
def retryCandidateLoop (ok : String → Nat → Bool) (cand : String) :
    Nat → Nat → List RetryEvent × Bool
  | _, 0 => ([], false)
  | retryCount, remaining + 1 =>
      if ok cand retryCount then ([RetryEvent.attempt cand retryCount], true)
      else
        match remaining with
        | 0 => ([RetryEvent.attempt cand retryCount], false)
        | _ + 1 =>
            let r := retryCandidateLoop ok cand (retryCount + 1) remaining
            (RetryEvent.attempt cand retryCount :: RetryEvent.delay RETRY_DELAY_MS :: r.1,
             r.2)

/-- One candidate's full retry sequence, starting with `retryCount = 0`. -/
def retryCandidate (ok : String → Nat → Bool) (cand : String) :
    List RetryEvent × Bool :=
  retryCandidateLoop ok cand 0 MAX_RETRIES

/-- The `for (const cand of meteoraLbPairCandidates)` loop: candidates are
tried in order, and `if (lbPairFound) break` stops the scan after the first
success.  Returns the event trace and the found candidate, if any. -/
def meteoraDiscovery (ok : String → Nat → Bool) :
    List String → List RetryEvent × Option String
  | [] => ([], none)
  | cand :: rest =>
      let r := retryCandidate ok cand
      if r.2 then (r.1, some cand)
      else
        let r2 := meteoraDiscovery ok rest
        (r.1 ++ r2.1, r2.2)

/-- Event lists of the shape `attempt (delay attempt)*` where every delay is
`RETRY_DELAY_MS`: a delay separates every two consecutive attempts and no
delay trails the last attempt. -/
def attemptDelayShape : List RetryEvent → Bool
  | [RetryEvent.attempt _ _] => true
  | RetryEvent.attempt _ _ :: RetryEvent.delay d :: rest =>
      (d == RETRY_DELAY_MS) && attemptDelayShape rest
  | _ => false

/-- No event strictly before the last one is a successful attempt: the loop
never issues anything after its first success. -/
def stopsAfterSuccess (ok : String → Nat → Bool) : List RetryEvent → Bool
  | [] => true
  | [_] => true
  | e :: rest => !(successfulAttempt ok e) && stopsAfterSuccess ok rest

/-! ## Replay driver (spec-modelled)

Modelled from the spec: the replay driver code (`replay.py`) is referenced by
the repository documentation but is not among the sources; per spec §4.3 the
driver iterates the ordered steps, records each step's outcome
classification, proceeds on `BuildFailed`/`TimedOut`/`SubmitFailed`/
`Confirmed`, and halts immediately on `CrashedRemote`. -/

/-- Outcome classification of one replay step (spec §3, `Outcome`). -/
inductive StepClass where
  | BuildFailed
  | SubmitFailed
  | Confirmed
  | CrashedRemote
  | TimedOut
deriving DecidableEq

/-- Modelled from the spec: the driver loop starting at step `i` with `fuel`
remaining steps.  Each attempted step's classification is recorded in order;
a `CrashedRemote` classification halts the loop at once, every other
classification lets the next step run. -/
def replayDriverFrom (outcomeOf : Nat → StepClass) : Nat → Nat → List (Nat × StepClass)
  | _, 0 => []
  | i, fuel + 1 =>
      let c := outcomeOf i
      if c = StepClass.CrashedRemote then [(i, c)]
      else (i, c) :: replayDriverFrom outcomeOf (i + 1) fuel

/-- Modelled from the spec: a full driver run over steps `0 .. n-1`.  The
returned list records exactly the steps that were attempted, in order. -/
def replayDriver (n : Nat) (outcomeOf : Nat → StepClass) : List (Nat × StepClass) :=
  replayDriverFrom outcomeOf 0 n

/-! ## Property shapes and sample inputs used by the theorems below -/

/-- The serialization contract every builder is claimed to satisfy: both
signature-check options are disabled, the transaction's recent blockhash is
the supplied one, and the fee payer is the configured agent key. -/
def serializedShape (pv : Option PubKey) (bh : String) (s : SerializedTx) : Prop :=
  s.config.requireAllSignatures = false ∧
  s.config.verifySignatures = false ∧
  s.tx.recentBlockhash = bh ∧
  s.tx.feePayer = pv.getD defaultPayerPubkey

/-- The failure contract of the runner CLI: non-zero exit, exactly one
failure JSON line with `success: false`, and — when the thrown value is an
aggregate — an `errors` list of the same length whose entries preserve each
sub-error's location fields and (when present and nonempty) its message. -/
def failureShape (e : JsError) (r : RunnerResult) : Prop :=
  r.exitCode ≠ 0 ∧
  ∃ f, r.stdout = [StdoutLine.failure f] ∧ f.success = false ∧
    (∀ a, e = JsError.aggregate a →
      ∃ l, f.errors = some l ∧ l.length = a.errors.length ∧
        ∀ i (hi : i < a.errors.length) (hl : i < l.length),
          (l.get ⟨i, hl⟩).line = (a.errors.get ⟨i, hi⟩).line ∧
          (l.get ⟨i, hl⟩).column = (a.errors.get ⟨i, hi⟩).column ∧
          (l.get ⟨i, hl⟩).file = (a.errors.get ⟨i, hi⟩).file ∧
          ∀ m, (a.errors.get ⟨i, hi⟩).message = some m → m ≠ "" →
            (l.get ⟨i, hl⟩).message = m)

/-- A raw swap instruction whose account list lacks a pubkey at index 1:
the input on which tx_02 throws while tx_05 silently filters. -/
def contrastRawIx (pa : PubKey) : RawSwapInstruction :=
  { programAddress := some pa
    accounts := [some { pubkey := some "k0", isSigner := true, isWritable := true },
                 none,
                 some { pubkey := some "k2", isSigner := false, isWritable := true }]
    data := [3] }

/-- Sample `RAYDIUM` record used by the witnesses. -/
def sampleRaydium : RaydiumEnv :=
  { programId := "CPMMoo8L3F4NbTegBCKVNunggL7H1ZpdTHKxQB5qKP1C"
    ammConfig := "cfg11111111111111111111111111111111111111111"
    poolState := "pool1111111111111111111111111111111111111111"
    token0Mint := usdcMint
    token1Mint := nativeMint
    token0Vault := "vault0"
    token1Vault := "vault1"
    token0Program := tokenProgramId
    token1Program := tokenProgramId
    observationKey := "obs"
    authority := "auth" }

/-- Sample SDK result with a present program address and one well-formed
account entry. -/
def sampleRawOk : RawSwapInstruction :=
  { programAddress := some "CPMMoo8L3F4NbTegBCKVNunggL7H1ZpdTHKxQB5qKP1C"
    accounts := [some { pubkey := some "auth", isSigner := false, isWritable := false }]
    data := [7] }

/-- Sample `METEORA` record used by the witnesses. -/
def sampleMeteoraEnv : MeteoraEnv :=
  { programId := "LBUZKhRxPF3XUpBCjp4YzTKgLccjZhTSDM9YuVaPwxo"
    lbPair := "HTvjzsfX3yU6BUodCjZ5vZkUrAxMDTrBs3CJaq43ashR"
    memoProgram := "MemoSq4gqABAXKb96qnH8TysNcWxMyWCqXgDLGmfcHr"
    binArrays := ["ba1", "ba2"] }

/-- Sample chain state where every queried account exists. -/
def sampleChain : PubKey → Option AccountInfoModel :=
  fun _ => some { data := [0], owner := tokenProgramId }

/-- Sample LbPair decoder result. -/
def sampleDecode : List Nat → LbPairState :=
  fun _ => { tokenXMint := "mx", tokenYMint := "my", reserveX := "rx",
             reserveY := "ry", oracle := "orc" }

/-- Sample swap2 data encoder. -/
def sampleEncode : Swap2Args → List Nat := fun _ => [5]

/-- Fallback value used to name the successful sample results. -/
def fallbackSerialized : SerializedTx :=
  { config := { requireAllSignatures := true, verifySignatures := true }
    tx := { recentBlockhash := "", feePayer := "", instructions := [] } }

/-- The successful result of tx_02 on the sample inputs. -/
def sample02Val : SerializedTx :=
  (tx02ExecuteSkill sampleRaydium none (fun _ => sampleRawOk) "bh1").toOption.getD
    fallbackSerialized

/-- The successful result of tx_05 on the sample inputs. -/
def sample05Val : SerializedTx :=
  (tx05ExecuteSkill sampleRaydium none (fun _ => sampleRawOk) "bh1").toOption.getD
    fallbackSerialized

/-- The successful result of the Meteora builder on the sample inputs. -/
def sampleMetVal : SerializedTx :=
  (meteoraExecuteSkill sampleMeteoraEnv none sampleChain sampleDecode sampleEncode
    "bh1").toOption.getD fallbackSerialized

/-- Sample Bun aggregate compilation error with two sub-errors. -/
def sampleAggregate : JsError :=
  JsError.aggregate
    { message := some "2 errors"
      errors := [{ message := some "Unexpected token", line := some 3, column := some 7,
                   file := some "tx.ts", fallback := "SyntaxError" },
                 { message := none, line := none, column := none, file := none,
                   fallback := "E2" }] }

/-- Sample outcome classification: the expected reproduction sequence
`[Confirmed, BuildFailed, Confirmed, Confirmed, CrashedRemote]`. -/
def sampleOutcomes : Nat → StepClass := fun i =>
  match i with
  | 0 => StepClass.Confirmed
  | 1 => StepClass.BuildFailed
  | 2 => StepClass.Confirmed
  | 3 => StepClass.Confirmed
  | _ => StepClass.CrashedRemote

/-- Sample success predicate for the retry loop: the third attempt (index 2)
on any candidate succeeds. -/
def sampleRetryOk : String → Nat → Bool := fun _ k => k == 2

/-- A raw swap instruction whose account list lacks only the entry at
index 0: the payer-insertion case of tx_02. -/
def rawMissingHead : RawSwapInstruction :=
  { programAddress := some "Prog"
    accounts := [none, some { pubkey := some "k1", isSigner := false, isWritable := false }]
    data := [] }

/-- A raw account entry carrying the agent key with both flags off. -/
def agentRawEntry : RawAccountMeta :=
  { pubkey := some "AG", isSigner := false, isWritable := false }

/-! # Theorems

First the helper lemmas, then one theorem per claim (with a witness or a
counterexample where required). -/

/-- The failure branch of the runner always produces the failure contract:
exit 1, exactly one `success: false` JSON line, aggregate sub-errors
preserved. -/
theorem describeError_agg_preserved (a : AggregateErrorData) :
    ∃ l, (describeError (JsError.aggregate a)).errors = some l ∧
      l.length = a.errors.length ∧
      ∀ i (hi : i < a.errors.length) (hl : i < l.length),
        l[i].line = a.errors[i].line ∧ l[i].column = a.errors[i].column ∧
        l[i].file = a.errors[i].file ∧
        ∀ m, a.errors[i].message = some m → m ≠ "" → l[i].message = m := by
  refine ⟨_, rfl, by simp [describeError], ?_⟩
  intro i hi hl
  refine ⟨by simp [describeError], by simp [describeError], by simp [describeError], ?_⟩
  intro m hm hne
  simp [describeError, hm, orDefault, hne]

/-- `failResult` satisfies the failure contract for every thrown value. -/
theorem failResult_shape (e : JsError) (settled : Option Nat) :
    failureShape e (failResult e settled) := by
  refine ⟨by simp [failResult], describeError e, rfl, ?_, ?_⟩
  · cases e <;> simp [describeError]
  · intro a ha
    subst ha
    exact describeError_agg_preserved a

/-- Claim C1: with all three positional arguments supplied and the module's
`executeSkill` resolving strictly before the configured timeout, the runner
prints exactly the single JSON line `{success: true, serialized_tx: tx}` to
standard output and exits with code 0. -/
theorem runner_success_single_json (fp ts bh tx : String) (lat t : Nat)
    (hfp : fp ≠ "") (hts : ts ≠ "") (hbh : bh ≠ "")
    (ht : t < effectiveDelay (parseIntJs ts)) :
    (runTransaction ⟨some fp, some ts, some bh⟩ (ModuleBehavior.resolvesAt tx t) lat).stdout
        = [StdoutLine.success tx] ∧
    (runTransaction ⟨some fp, some ts, some bh⟩ (ModuleBehavior.resolvesAt tx t) lat).exitCode
        = 0 := by
  have hm : argsMissing ⟨some fp, some ts, some bh⟩ = false := by
    simp [argsMissing, isFalsy, hfp, hts, hbh]
  have hle : t ≤ effectiveDelay (parseIntJs ts) + lat := by omega
  constructor <;> simp [runTransaction, hm, hle]

/-- Witness for C1 at concrete inputs. -/
theorem runner_success_single_json_witness :
    (runTransaction ⟨some "tx.ts", some "1000", some "Gf"⟩
        (ModuleBehavior.resolvesAt "AAAA" 5) 0).stdout = [StdoutLine.success "AAAA"] ∧
    (runTransaction ⟨some "tx.ts", some "1000", some "Gf"⟩
        (ModuleBehavior.resolvesAt "AAAA" 5) 0).exitCode = 0 :=
  runner_success_single_json "tx.ts" "1000" "Gf" "AAAA" 0 5
    (by decide) (by decide) (by decide) (by decide)

/-- Claim C2: when the dynamic import throws or the build capability rejects
before the timer fires, the runner prints a single `success: false` JSON
line whose `error`, `details` and `type` fields are strings and whose
`errors` list preserves each sub-error's message, line, column and file when
the thrown value is an aggregate, and the process exits non-zero. -/
theorem runner_failure_single_json (fp ts bh : String) (lat t : Nat) (e : JsError)
    (hfp : fp ≠ "") (hts : ts ≠ "") (hbh : bh ≠ "")
    (ht : t ≤ effectiveDelay (parseIntJs ts) + lat) :
    failureShape e (runTransaction ⟨some fp, some ts, some bh⟩
        (ModuleBehavior.importThrows e) lat) ∧
    failureShape e (runTransaction ⟨some fp, some ts, some bh⟩
        (ModuleBehavior.rejectsAt e t) lat) := by
  have hm : argsMissing ⟨some fp, some ts, some bh⟩ = false := by
    simp [argsMissing, isFalsy, hfp, hts, hbh]
  have h1 : runTransaction ⟨some fp, some ts, some bh⟩
      (ModuleBehavior.importThrows e) lat = failResult e none := by
    simp [runTransaction, hm]
  have h2 : runTransaction ⟨some fp, some ts, some bh⟩
      (ModuleBehavior.rejectsAt e t) lat = failResult e (some t) := by
    simp [runTransaction, hm, ht]
  exact ⟨by rw [h1]; exact failResult_shape e none,
         by rw [h2]; exact failResult_shape e (some t)⟩

/-- Witness for C2 at a concrete aggregate error. -/
theorem runner_failure_single_json_witness :
    failureShape sampleAggregate (runTransaction ⟨some "m.ts", some "1000", some "B"⟩
        (ModuleBehavior.importThrows sampleAggregate) 0) ∧
    failureShape sampleAggregate (runTransaction ⟨some "m.ts", some "1000", some "B"⟩
        (ModuleBehavior.rejectsAt sampleAggregate 0) 0) :=
  runner_failure_single_json "m.ts" "1000" "B" 0 0 sampleAggregate
    (by decide) (by decide) (by decide) (Nat.zero_le _)

/-- Claim C3: when the build capability never settles, the race settles with
the timeout rejection at or after the configured timeout (never earlier),
the runner prints a single `success: false` line carrying the timeout
message, exits non-zero (tearing the process — the isolated execution
context — down), and no success line ever reaches standard output. -/
theorem runner_timeout_classification (fp ts bh : String) (lat : Nat) (n : Int)
    (hfp : fp ≠ "") (hts : ts ≠ "") (hbh : bh ≠ "")
    (hn : parseIntJs ts = some n) (_hn0 : 0 ≤ n) :
    (∃ t, (runTransaction ⟨some fp, some ts, some bh⟩
        ModuleBehavior.neverSettles lat).settledAt = some t ∧ n.toNat ≤ t) ∧
    (runTransaction ⟨some fp, some ts, some bh⟩
        ModuleBehavior.neverSettles lat).exitCode ≠ 0 ∧
    (∃ f, (runTransaction ⟨some fp, some ts, some bh⟩
          ModuleBehavior.neverSettles lat).stdout = [StdoutLine.failure f] ∧
        f.success = false ∧ f.error = "Transaction execution timed out.") ∧
    (∀ s, StdoutLine.success s ∉ (runTransaction ⟨some fp, some ts, some bh⟩
        ModuleBehavior.neverSettles lat).stdout) := by
  have hm : argsMissing ⟨some fp, some ts, some bh⟩ = false := by
    simp [argsMissing, isFalsy, hfp, hts, hbh]
  have hrun : runTransaction ⟨some fp, some ts, some bh⟩
      ModuleBehavior.neverSettles lat
      = failResult timeoutError (some (effectiveDelay (parseIntJs ts) + lat)) := by
    simp [runTransaction, hm]
  rw [hrun]
  refine ⟨⟨effectiveDelay (parseIntJs ts) + lat, rfl, ?_⟩, by simp [failResult],
    ⟨describeError timeoutError, rfl, rfl, rfl⟩, ?_⟩
  · simp [hn, effectiveDelay]
  · intro s hs
    simp [failResult] at hs

/-- Witness for C3 at concrete inputs. -/
theorem runner_timeout_classification_witness :
    (∃ t, (runTransaction ⟨some "m.ts", some "500", some "B"⟩
        ModuleBehavior.neverSettles 2).settledAt = some t ∧ (500 : Int).toNat ≤ t) ∧
    (runTransaction ⟨some "m.ts", some "500", some "B"⟩
        ModuleBehavior.neverSettles 2).exitCode ≠ 0 ∧
    (∃ f, (runTransaction ⟨some "m.ts", some "500", some "B"⟩
          ModuleBehavior.neverSettles 2).stdout = [StdoutLine.failure f] ∧
        f.success = false ∧ f.error = "Transaction execution timed out.") ∧
    (∀ s, StdoutLine.success s ∉ (runTransaction ⟨some "m.ts", some "500", some "B"⟩
        ModuleBehavior.neverSettles 2).stdout) :=
  runner_timeout_classification "m.ts" "500" "B" 2 500
    (by decide) (by decide) (by decide) (by decide) (by decide)

/-- Counterexample to C4 as stated: invoked with the module path missing,
the runner writes no JSON line at all to standard output (only a usage
message to standard error) and exits 1. -/
theorem runner_missing_arg_no_stdout :
    (runTransaction ⟨none, some "1000", some "bh"⟩ ModuleBehavior.neverSettles 0).stdout
        = [] ∧
    (runTransaction ⟨none, some "1000", some "bh"⟩ ModuleBehavior.neverSettles 0).stderr
        = [usageLine] ∧
    (runTransaction ⟨none, some "1000", some "bh"⟩ ModuleBehavior.neverSettles 0).exitCode
        = 1 :=
  ⟨rfl, rfl, rfl⟩

/-- Claim C4 (amended): when all three positional arguments are present and
nonempty, exactly one structured JSON result line is written to standard
output (diagnostics go to the separate standard-error channel); when an
argument is missing or empty the runner writes nothing to standard output,
prints only the usage line to standard error, and exits 1. -/
theorem runner_structured_output_channel (args : RunnerArgs) (b : ModuleBehavior)
    (lat : Nat) :
    (argsMissing args = true →
      (runTransaction args b lat).stdout = [] ∧
      (runTransaction args b lat).stderr = [usageLine] ∧
      (runTransaction args b lat).exitCode = 1) ∧
    (argsMissing args = false → (runTransaction args b lat).stdout.length = 1) := by
  constructor
  · intro h
    simp [runTransaction, h]
  · intro h
    cases b <;> simp [runTransaction, h, failResult] <;> split <;> simp [failResult]

/-- Witness for C4 (amended), at a complete and at an incomplete invocation. -/
theorem runner_structured_output_channel_witness :
    (runTransaction ⟨some "m.ts", some "7", some "B"⟩
        (ModuleBehavior.resolvesAt "AA" 1) 0).stdout.length = 1 ∧
    (runTransaction ⟨some "m.ts", none, some "B"⟩
        (ModuleBehavior.resolvesAt "AA" 1) 0).stdout = [] :=
  ⟨(runner_structured_output_channel ⟨some "m.ts", some "7", some "B"⟩
      (ModuleBehavior.resolvesAt "AA" 1) 0).2 (by decide),
   ((runner_structured_output_channel ⟨some "m.ts", none, some "B"⟩
      (ModuleBehavior.resolvesAt "AA" 1) 0).1 (by decide)).1⟩

/-- Entries recorded by the driver never precede the starting index. -/
theorem replayDriverFrom_mem_le (f : Nat → StepClass) :
    ∀ fuel start j c, (j, c) ∈ replayDriverFrom f start fuel → start ≤ j := by
  intro fuel
  induction fuel with
  | zero => intro start j c h; simp [replayDriverFrom] at h
  | succ m ih =>
      intro start j c h
      simp only [replayDriverFrom] at h
      by_cases hc : f start = StepClass.CrashedRemote
      · simp [hc] at h
        omega
      · simp [hc] at h
        rcases h with h | h
        · omega
        · have := ih (start + 1) j c h
          omega

/-- A `CrashedRemote` entry bounds every recorded index from above: nothing
is recorded after the crash. -/
theorem replayDriverFrom_crash_max (f : Nat → StepClass) :
    ∀ fuel start i, (i, StepClass.CrashedRemote) ∈ replayDriverFrom f start fuel →
      ∀ j c, (j, c) ∈ replayDriverFrom f start fuel → j ≤ i := by
  intro fuel
  induction fuel with
  | zero => intro start i hi; simp [replayDriverFrom] at hi
  | succ m ih =>
      intro start i hi j c hj
      simp only [replayDriverFrom] at hi hj
      by_cases hc : f start = StepClass.CrashedRemote
      · simp [hc] at hi hj
        omega
      · simp [hc] at hi hj
        rcases hi with hi | hi
        · exact absurd hi.2.symm hc
        · rcases hj with hj | hj
          · have := replayDriverFrom_mem_le f m (start + 1) i StepClass.CrashedRemote hi
            omega
          · exact ih (start + 1) i hi j c hj

/-- Claim C8: if the driver records a `CrashedRemote` outcome at step `i`,
no step with a higher index is ever attempted during that run. -/
theorem crashed_remote_halts (n : Nat) (outcomeOf : Nat → StepClass) (i j : Nat)
    (c : StepClass)
    (hi : (i, StepClass.CrashedRemote) ∈ replayDriver n outcomeOf) (hij : i < j) :
    (j, c) ∉ replayDriver n outcomeOf := by
  intro hj
  have := replayDriverFrom_crash_max outcomeOf n 0 i hi j c hj
  omega

/-- Witness for C8 on the expected reproduction sequence: the crash at step
4 means step 5 is never attempted, even with more steps configured. -/
theorem crashed_remote_halts_witness :
    (5, StepClass.Confirmed) ∉ replayDriver 7 sampleOutcomes :=
  crashed_remote_halts 7 sampleOutcomes 4 5 StepClass.Confirmed (by decide) (by decide)

/-- Unfolding: the loop with no remaining attempts. -/
theorem retryLoop_zero (ok : String → Nat → Bool) (cand : String) (rc : Nat) :
    retryCandidateLoop ok cand rc 0 = ([], false) := rfl

/-- Unfolding: a successful attempt ends the loop at once. -/
theorem retryLoop_success (ok : String → Nat → Bool) (cand : String) (rc m : Nat)
    (hok : ok cand rc = true) :
    retryCandidateLoop ok cand rc (m + 1) = ([RetryEvent.attempt cand rc], true) := by
  simp [retryCandidateLoop, hok]

/-- Unfolding: the last allowed attempt fails without a trailing delay. -/
theorem retryLoop_fail_last (ok : String → Nat → Bool) (cand : String) (rc : Nat)
    (hok : ok cand rc = false) :
    retryCandidateLoop ok cand rc 1 = ([RetryEvent.attempt cand rc], false) := by
  simp [retryCandidateLoop, hok]

/-- Unfolding: a failed attempt with attempts left sleeps `RETRY_DELAY_MS`
and retries with an incremented counter. -/
theorem retryLoop_fail_step (ok : String → Nat → Bool) (cand : String) (rc m : Nat)
    (hok : ok cand rc = false) :
    retryCandidateLoop ok cand rc (m + 2) =
      (RetryEvent.attempt cand rc :: RetryEvent.delay RETRY_DELAY_MS ::
         (retryCandidateLoop ok cand (rc + 1) (m + 1)).1,
       (retryCandidateLoop ok cand (rc + 1) (m + 1)).2) := by
  simp [retryCandidateLoop, hok]

/-- The per-candidate loop issues at most `remaining` attempts. -/
theorem retryCandidateLoop_attempts_le (ok : String → Nat → Bool) (cand : String) :
    ∀ remaining retryCount,
      ((retryCandidateLoop ok cand retryCount remaining).1.countP isAttemptEvent)
        ≤ remaining := by
  intro remaining
  induction remaining with
  | zero => intro rc; simp [retryLoop_zero]
  | succ m ih =>
      intro rc
      cases hok : ok cand rc
      case true => rw [retryLoop_success ok cand rc m hok]; simp [isAttemptEvent]
      case false =>
        cases m with
        | zero => rw [retryLoop_fail_last ok cand rc hok]; simp [isAttemptEvent]
        | succ m2 =>
            rw [retryLoop_fail_step ok cand rc m2 hok]
            have h := ih (rc + 1)
            simp [List.countP_cons, isAttemptEvent]
            omega

/-- The per-candidate trace is a strict alternation `attempt (delay
attempt)*` whose every delay is `RETRY_DELAY_MS`. -/
theorem retryCandidateLoop_shape (ok : String → Nat → Bool) (cand : String) :
    ∀ remaining retryCount, remaining ≠ 0 →
      attemptDelayShape (retryCandidateLoop ok cand retryCount remaining).1 = true := by
  intro remaining
  induction remaining with
  | zero => intro rc h; exact absurd rfl h
  | succ m ih =>
      intro rc _
      cases hok : ok cand rc
      case true => rw [retryLoop_success ok cand rc m hok]; rfl
      case false =>
        cases m with
        | zero => rw [retryLoop_fail_last ok cand rc hok]; rfl
        | succ m2 =>
            rw [retryLoop_fail_step ok cand rc m2 hok]
            have h := ih (rc + 1) (by omega)
            simp [attemptDelayShape, h]

/-- Every delay in a per-candidate trace is `RETRY_DELAY_MS`. -/
theorem retryCandidateLoop_delay_ms (ok : String → Nat → Bool) (cand : String) :
    ∀ remaining retryCount d,
      RetryEvent.delay d ∈ (retryCandidateLoop ok cand retryCount remaining).1 →
      d = RETRY_DELAY_MS := by
  intro remaining
  induction remaining with
  | zero => intro rc d h; simp [retryLoop_zero] at h
  | succ m ih =>
      intro rc d h
      cases hok : ok cand rc
      case true =>
        rw [retryLoop_success ok cand rc m hok] at h
        simp at h
      case false =>
        cases m with
        | zero =>
            rw [retryLoop_fail_last ok cand rc hok] at h
            simp at h
        | succ m2 =>
            rw [retryLoop_fail_step ok cand rc m2 hok] at h
            simp [List.mem_cons] at h
            rcases h with h | h
            · exact h
            · exact ih (rc + 1) d h

/-- The per-candidate trace has at most `2 * remaining` events. -/
theorem retryCandidateLoop_length_le (ok : String → Nat → Bool) (cand : String) :
    ∀ remaining retryCount,
      (retryCandidateLoop ok cand retryCount remaining).1.length ≤ 2 * remaining := by
  intro remaining
  induction remaining with
  | zero => intro rc; simp [retryLoop_zero]
  | succ m ih =>
      intro rc
      cases hok : ok cand rc
      case true => rw [retryLoop_success ok cand rc m hok]; simp; omega
      case false =>
        cases m with
        | zero => rw [retryLoop_fail_last ok cand rc hok]; simp
        | succ m2 =>
            rw [retryLoop_fail_step ok cand rc m2 hok]
            have h := ih (rc + 1)
            simp [List.length_cons]
            omega

/-- If a per-candidate loop ends without success, none of its attempts
succeeded. -/
theorem retryCandidateLoop_not_found (ok : String → Nat → Bool) (cand : String) :
    ∀ remaining retryCount,
      (retryCandidateLoop ok cand retryCount remaining).2 = false →
      ∀ e ∈ (retryCandidateLoop ok cand retryCount remaining).1,
        successfulAttempt ok e = false := by
  intro remaining
  induction remaining with
  | zero => intro rc _ e he; simp [retryLoop_zero] at he
  | succ m ih =>
      intro rc hf e he
      cases hok : ok cand rc
      case true =>
        rw [retryLoop_success ok cand rc m hok] at hf
        simp at hf
      case false =>
        cases m with
        | zero =>
            rw [retryLoop_fail_last ok cand rc hok] at he
            simp at he
            simp [he, successfulAttempt, hok]
        | succ m2 =>
            rw [retryLoop_fail_step ok cand rc m2 hok] at hf he
            simp at hf
            simp [List.mem_cons] at he
            rcases he with he | he | he
            · simp [he, successfulAttempt, hok]
            · simp [he, successfulAttempt]
            · exact ih (rc + 1) hf e he

/-- Unfolding of `stopsAfterSuccess` over a cons cell. -/
theorem stopsAfterSuccess_cons (ok : String → Nat → Bool) (x : RetryEvent)
    (l : List RetryEvent) :
    stopsAfterSuccess ok (x :: l) = true ↔
      (l = [] ∨ (successfulAttempt ok x = false ∧ stopsAfterSuccess ok l = true)) := by
  cases l <;> simp [stopsAfterSuccess]

/-- Appending a trace of failed attempts in front preserves the
stops-after-success property. -/
theorem stopsAfterSuccess_append (ok : String → Nat → Bool) (l1 l2 : List RetryEvent)
    (h1 : ∀ e ∈ l1, successfulAttempt ok e = false)
    (h2 : stopsAfterSuccess ok l2 = true) :
    stopsAfterSuccess ok (l1 ++ l2) = true := by
  induction l1 with
  | nil => simpa using h2
  | cons x t ih =>
      rw [List.cons_append, stopsAfterSuccess_cons]
      exact Or.inr ⟨h1 x (List.mem_cons_self x t),
        ih (fun e he => h1 e (List.mem_cons_of_mem x he))⟩

/-- A per-candidate trace never continues past its first success. -/
theorem retryCandidateLoop_stops (ok : String → Nat → Bool) (cand : String) :
    ∀ remaining retryCount,
      stopsAfterSuccess ok (retryCandidateLoop ok cand retryCount remaining).1 = true := by
  intro remaining
  induction remaining with
  | zero => intro rc; rfl
  | succ m ih =>
      intro rc
      cases hok : ok cand rc
      case true => rw [retryLoop_success ok cand rc m hok]; rfl
      case false =>
        cases m with
        | zero => rw [retryLoop_fail_last ok cand rc hok]; rfl
        | succ m2 =>
            rw [retryLoop_fail_step ok cand rc m2 hok]
            have h1 : successfulAttempt ok (RetryEvent.attempt cand rc) = false := by
              simp [successfulAttempt, hok]
            have h2 : successfulAttempt ok (RetryEvent.delay RETRY_DELAY_MS) = false := rfl
            have h3 := ih (rc + 1)
            simp [stopsAfterSuccess_cons, h1, h2, h3]

/-- Every delay in the whole discovery trace is `RETRY_DELAY_MS`. -/
theorem meteoraDiscovery_delay_ms (ok : String → Nat → Bool) :
    ∀ cands d, RetryEvent.delay d ∈ (meteoraDiscovery ok cands).1 →
      d = RETRY_DELAY_MS := by
  intro cands
  induction cands with
  | nil => intro d h; simp [meteoraDiscovery] at h
  | cons c rest ih =>
      intro d h
      simp only [meteoraDiscovery] at h
      by_cases hr : (retryCandidate ok c).2 = true
      · rw [if_pos hr] at h
        exact retryCandidateLoop_delay_ms ok c MAX_RETRIES 0 d h
      · rw [if_neg hr] at h
        rcases List.mem_append.mp h with h | h
        · exact retryCandidateLoop_delay_ms ok c MAX_RETRIES 0 d h
        · exact ih d h

/-- The discovery trace is finite, bounded by `2 * MAX_RETRIES` events per
candidate. -/
theorem meteoraDiscovery_length_le (ok : String → Nat → Bool) :
    ∀ cands, (meteoraDiscovery ok cands).1.length
      ≤ 2 * MAX_RETRIES * cands.length := by
  intro cands
  induction cands with
  | nil => simp [meteoraDiscovery]
  | cons c rest ih =>
      have hc : (retryCandidate ok c).1.length ≤ 2 * MAX_RETRIES :=
        retryCandidateLoop_length_le ok c MAX_RETRIES 0
      simp only [meteoraDiscovery]
      by_cases hr : (retryCandidate ok c).2 = true
      · rw [if_pos hr]
        have hgoal : (retryCandidate ok c).1.length
            ≤ 2 * MAX_RETRIES * (c :: rest).length := by
          simp only [MAX_RETRIES, List.length_cons] at *
          omega
        exact hgoal
      · rw [if_neg hr]
        have hgoal : ((retryCandidate ok c).1 ++ (meteoraDiscovery ok rest).1).length
            ≤ 2 * MAX_RETRIES * (c :: rest).length := by
          rw [List.length_append]
          simp only [MAX_RETRIES, List.length_cons] at *
          omega
        exact hgoal

/-- The discovery trace never continues past its first success. -/
theorem meteoraDiscovery_stops (ok : String → Nat → Bool) :
    ∀ cands, stopsAfterSuccess ok (meteoraDiscovery ok cands).1 = true := by
  intro cands
  induction cands with
  | nil => rfl
  | cons c rest ih =>
      simp only [meteoraDiscovery]
      by_cases hr : (retryCandidate ok c).2 = true
      · rw [if_pos hr]
        exact retryCandidateLoop_stops ok c MAX_RETRIES 0
      · rw [if_neg hr]
        have hgoal : stopsAfterSuccess ok
            ((retryCandidate ok c).1 ++ (meteoraDiscovery ok rest).1) = true :=
          stopsAfterSuccess_append ok _ _
            (retryCandidateLoop_not_found ok c MAX_RETRIES 0
              (Bool.eq_false_iff.mpr hr)) ih
        exact hgoal

/-- Claim C7: the Meteora pool-discovery retry loop attempts each candidate
at most `MAX_RETRIES = 10` times, its trace strictly alternates attempts
with `RETRY_DELAY_MS = 1000` millisecond delays (a delay between any two
consecutive failed attempts, every delay exactly 1000 ms), the whole
discovery trace is finite for every candidate list, and no attempt — on the
same or any later candidate — is issued after the first success. -/
theorem meteora_retry_policy (ok : String → Nat → Bool) (cand : String)
    (cands : List String) :
    (retryCandidate ok cand).1.countP isAttemptEvent ≤ MAX_RETRIES ∧
    attemptDelayShape (retryCandidate ok cand).1 = true ∧
    (∀ d, RetryEvent.delay d ∈ (meteoraDiscovery ok cands).1 → d = RETRY_DELAY_MS) ∧
    (meteoraDiscovery ok cands).1.length ≤ 2 * MAX_RETRIES * cands.length ∧
    stopsAfterSuccess ok (meteoraDiscovery ok cands).1 = true :=
  ⟨retryCandidateLoop_attempts_le ok cand MAX_RETRIES 0,
   retryCandidateLoop_shape ok cand MAX_RETRIES 0 (by simp [MAX_RETRIES]),
   meteoraDiscovery_delay_ms ok cands,
   meteoraDiscovery_length_le ok cands,
   meteoraDiscovery_stops ok cands⟩

/-- Witness for C7 at a concrete success predicate and candidate list. -/
theorem meteora_retry_policy_witness :
    (retryCandidate sampleRetryOk "HTv").1.countP isAttemptEvent ≤ MAX_RETRIES ∧
    attemptDelayShape (retryCandidate sampleRetryOk "HTv").1 = true ∧
    (1000 : Nat) = RETRY_DELAY_MS ∧
    stopsAfterSuccess sampleRetryOk
      (meteoraDiscovery sampleRetryOk ["HTv", "X2"]).1 = true := by
  have h := meteora_retry_policy sampleRetryOk "HTv" ["HTv", "X2"]
  exact ⟨h.1, h.2.1, h.2.2.1 1000 (by decide), h.2.2.2.2⟩

/-- A present account entry that is the agent's key is normalised to
signer and writable. -/
theorem normalizeKey_agent_flags (agent : PubKey) (mm : RawAccountMeta) (pk : PubKey)
    (hk : (normalizeKey agent mm pk).pubkey = agent) :
    (normalizeKey agent mm pk).isSigner = true ∧
    (normalizeKey agent mm pk).isWritable = true := by
  have hpk : pk = agent := hk
  simp [normalizeKey, hpk]

/-- A key produced by the indexed map of tx_02 that equals the agent is
signer and writable. -/
theorem tx02SwapKeyAt_agent_flags (agent : PubKey) (i : Nat) (m : Option RawAccountMeta)
    (k : AccountMeta) (h : tx02SwapKeyAt agent i m = Except.ok k)
    (hk : k.pubkey = agent) : k.isSigner = true ∧ k.isWritable = true := by
  cases m with
  | none =>
      simp only [tx02SwapKeyAt] at h
      split at h
      · simp only [Except.ok.injEq] at h
        subst h
        exact ⟨rfl, rfl⟩
      · simp at h
  | some mm =>
      cases hp : mm.pubkey with
      | none =>
          simp only [tx02SwapKeyAt, hp] at h
          split at h
          · simp only [Except.ok.injEq] at h
            subst h
            exact ⟨rfl, rfl⟩
          · simp at h
      | some pk =>
          simp only [tx02SwapKeyAt, hp, Except.ok.injEq] at h
          subst h
          exact normalizeKey_agent_flags agent mm pk hk

/-- Agent keys in a successful tx_02 key list are signer and writable. -/
theorem tx02SwapKeysFrom_agent_flags (agent : PubKey) :
    ∀ (accounts : List (Option RawAccountMeta)) (i : Nat) (l : List AccountMeta),
      tx02SwapKeysFrom agent i accounts = Except.ok l →
      ∀ k ∈ l, k.pubkey = agent → k.isSigner = true ∧ k.isWritable = true := by
  intro accounts
  induction accounts with
  | nil =>
      intro i l h k hk hpk
      simp only [tx02SwapKeysFrom, Except.ok.injEq] at h
      subst h
      simp at hk
  | cons m rest ih =>
      intro i l h k hk hpk
      cases hA : tx02SwapKeyAt agent i m with
      | error e => rw [tx02SwapKeysFrom, hA] at h; simp at h
      | ok k0 =>
          cases hR : tx02SwapKeysFrom agent (i + 1) rest with
          | error e => rw [tx02SwapKeysFrom, hA, hR] at h; simp at h
          | ok ks =>
              rw [tx02SwapKeysFrom, hA, hR] at h
              simp only [Except.ok.injEq] at h
              subst h
              rcases List.mem_cons.mp hk with hk0 | hk0
              · subst hk0
                exact tx02SwapKeyAt_agent_flags agent i m k hA hpk
              · exact ih (i + 1) ks hR k hk0 hpk

/-- Agent keys in a tx_05 key list are signer and writable. -/
theorem tx05SwapKeys_agent_flags (agent : PubKey) :
    ∀ accounts, ∀ k ∈ tx05SwapKeys agent accounts,
      k.pubkey = agent → k.isSigner = true ∧ k.isWritable = true := by
  intro accounts
  induction accounts with
  | nil => intro k hk; simp [tx05SwapKeys] at hk
  | cons m rest ih =>
      intro k hk hpk
      cases m with
      | none =>
          rw [tx05SwapKeys] at hk
          exact ih k hk hpk
      | some mm =>
          cases hp : mm.pubkey with
          | none =>
              rw [tx05SwapKeys, hp] at hk
              exact ih k hk hpk
          | some pk =>
              rw [tx05SwapKeys, hp] at hk
              rcases List.mem_cons.mp hk with hk0 | hk0
              · subst hk0
                exact normalizeKey_agent_flags agent mm pk hpk
              · exact ih k hk0 hpk

/-- tx_05 preserves exactly the present pubkeys, in order. -/
theorem tx05SwapKeys_pubkeys (agent : PubKey) :
    ∀ accounts, (tx05SwapKeys agent accounts).map AccountMeta.pubkey
      = accounts.filterMap metaPubkey := by
  intro accounts
  induction accounts with
  | nil => rfl
  | cons m rest ih =>
      cases m with
      | none => simp [tx05SwapKeys, metaPubkey, List.filterMap_cons, ih]
      | some mm =>
          cases hp : mm.pubkey with
          | none => simp [tx05SwapKeys, metaPubkey, List.filterMap_cons, hp, ih]
          | some pk =>
              simp [tx05SwapKeys, metaPubkey, List.filterMap_cons, hp, ih, normalizeKey]

/-- A missing entry at a positive overall index makes tx_02's indexed map
throw. -/
theorem tx02SwapKeysFrom_missing_err (agent : PubKey) :
    ∀ (accounts : List (Option RawAccountMeta)) (i0 : Nat),
      (∃ (j : Nat) (mj : Option RawAccountMeta),
        accounts[j]? = some mj ∧ metaPubkey mj = none ∧ 0 < i0 + j) →
      isErr (tx02SwapKeysFrom agent i0 accounts) = true := by
  intro accounts
  induction accounts with
  | nil =>
      intro i0 h
      obtain ⟨j, mj, hj, _⟩ := h
      simp at hj
  | cons m rest ih =>
      intro i0 h
      obtain ⟨j, mj, hj, hnone, hpos⟩ := h
      cases j with
      | zero =>
          have hi0 : i0 ≠ 0 := by omega
          simp only [List.getElem?_cons_zero, Option.some.injEq] at hj
          subst hj
          have hA : isErr (tx02SwapKeyAt agent i0 m) = true := by
            cases m with
            | none => simp [tx02SwapKeyAt, isErr, hi0]
            | some mm =>
                have hp : mm.pubkey = none := by simpa [metaPubkey] using hnone
                simp [tx02SwapKeyAt, isErr, hp, hi0]
          cases hA2 : tx02SwapKeyAt agent i0 m with
          | error e => simp [tx02SwapKeysFrom, hA2, isErr]
          | ok k => rw [hA2] at hA; simp [isErr] at hA
      | succ j2 =>
          have hrec := ih (i0 + 1)
            ⟨j2, mj, by simpa using hj, hnone, by omega⟩
          cases hA2 : tx02SwapKeyAt agent i0 m with
          | error e => simp [tx02SwapKeysFrom, hA2, isErr]
          | ok k =>
              cases hR : tx02SwapKeysFrom agent (i0 + 1) rest with
              | error e => simp [tx02SwapKeysFrom, hA2, hR, isErr]
              | ok ks => rw [hR] at hrec; simp [isErr] at hrec

/-- When every entry has a pubkey, tx_02's indexed map succeeds. -/
theorem tx02SwapKeysFrom_all_present (agent : PubKey) :
    ∀ (accounts : List (Option RawAccountMeta)) (i0 : Nat),
      (∀ (j : Nat) (mj : Option RawAccountMeta),
        accounts[j]? = some mj → metaPubkey mj ≠ none) →
      ∃ l, tx02SwapKeysFrom agent i0 accounts = Except.ok l := by
  intro accounts
  induction accounts with
  | nil => intro i0 _; exact ⟨[], rfl⟩
  | cons m rest ih =>
      intro i0 hall
      have h0 : metaPubkey m ≠ none := hall 0 m (by simp)
      cases m with
      | none => exact absurd rfl h0
      | some mm =>
          cases hp : mm.pubkey with
          | none => exact absurd (by simp [metaPubkey, hp]) h0
          | some pk =>
              obtain ⟨l2, hl2⟩ := ih (i0 + 1) (fun j mj hj =>
                hall (j + 1) mj (by simpa using hj))
              exact ⟨normalizeKey agent mm pk :: l2,
                by simp [tx02SwapKeysFrom, tx02SwapKeyAt, hp, hl2]⟩

/-- A throwing key computation propagates to tx_02's build result. -/
theorem tx02ExecuteSkill_swapKeys_err (ray : RaydiumEnv) (pv : Option PubKey)
    (rawIx : RawSwapInstruction) (bh : String) (pa : PubKey)
    (hpa : rawIx.programAddress = some pa)
    (herr : isErr (tx02SwapKeys (pv.getD defaultPayerPubkey) rawIx.accounts) = true) :
    isErr (tx02ExecuteSkill ray pv (fun _ => rawIx) bh) = true := by
  cases hK : tx02SwapKeys (pv.getD defaultPayerPubkey) rawIx.accounts with
  | ok l => rw [hK] at herr; simp [isErr] at herr
  | error e => simp [tx02ExecuteSkill, hpa, hK, isErr]

/-- With a present program address, tx_05 never throws. -/
theorem tx05ExecuteSkill_not_err (ray : RaydiumEnv) (pv : Option PubKey)
    (rawIx : RawSwapInstruction) (bh : String) (pa : PubKey)
    (hpa : rawIx.programAddress = some pa) :
    isErr (tx05ExecuteSkill ray pv (fun _ => rawIx) bh) = false := by
  simp [tx05ExecuteSkill, hpa, isErr]

/-- With a present program address, tx_05 returns a transaction containing
the swap instruction built from the filtered keys. -/
theorem tx05ExecuteSkill_swapIx_mem (ray : RaydiumEnv) (pv : Option PubKey)
    (rawIx : RawSwapInstruction) (bh : String) (pa : PubKey)
    (hpa : rawIx.programAddress = some pa) :
    ∃ s, tx05ExecuteSkill ray pv (fun _ => rawIx) bh = Except.ok s ∧
      ({ programId := pa, keys := tx05SwapKeys (pv.getD defaultPayerPubkey) rawIx.accounts,
         data := rawIx.data } : Instruction) ∈ s.tx.instructions := by
  simp only [tx05ExecuteSkill]
  rw [hpa]
  refine ⟨_, rfl, ?_⟩
  simp

/-- Claim C5: whenever one of the three builders returns, the value is the
serialization — with `requireAllSignatures` and `verifySignatures` both
false — of a transaction whose `recentBlockhash` is the supplied blockhash
string and whose fee payer is the configured agent public key. -/
theorem builders_serialize_contract (ray : RaydiumEnv) (met : MeteoraEnv)
    (pv : Option PubKey) (sdk02 sdk05 : SwapBaseInputArgs → RawSwapInstruction)
    (chain : PubKey → Option AccountInfoModel)
    (decodeLbPair : List Nat → LbPairState) (encodeSwap2 : Swap2Args → List Nat)
    (bh : String) :
    (∀ s, tx02ExecuteSkill ray pv sdk02 bh = Except.ok s → serializedShape pv bh s) ∧
    (∀ s, tx05ExecuteSkill ray pv sdk05 bh = Except.ok s → serializedShape pv bh s) ∧
    (∀ s, meteoraExecuteSkill met pv chain decodeLbPair encodeSwap2 bh = Except.ok s →
      serializedShape pv bh s) := by
  refine ⟨?_, ?_, ?_⟩
  · intro s h
    simp only [tx02ExecuteSkill] at h
    split at h
    · simp at h
    · split at h
      · simp at h
      · simp only [Except.ok.injEq] at h
        subst h
        simp [serializedShape]
  · intro s h
    simp only [tx05ExecuteSkill] at h
    split at h
    · simp at h
    · simp only [Except.ok.injEq] at h
      subst h
      simp [serializedShape]
  · intro s h
    simp only [meteoraExecuteSkill] at h
    split at h
    · simp at h
    · split at h
      · simp only [Except.ok.injEq] at h
        subst h
        simp [serializedShape]
      · simp at h

/-- Witness for C5: all three builders succeed on the sample inputs and
their results satisfy the serialization contract. -/
theorem builders_serialize_contract_witness :
    serializedShape none "bh1" sample02Val ∧
    serializedShape none "bh1" sample05Val ∧
    serializedShape none "bh1" sampleMetVal := by
  have h := builders_serialize_contract sampleRaydium sampleMeteoraEnv none
    (fun _ => sampleRawOk) (fun _ => sampleRawOk) sampleChain sampleDecode
    sampleEncode "bh1"
  exact ⟨h.1 sample02Val rfl, h.2.1 sample05Val rfl, h.2.2 sampleMetVal rfl⟩

/-- Claim C6: if the Raydium SDK's account list lacks a pubkey at any index
other than 0, tx_02's build capability throws instead of returning a
serialized transaction; if the entry is missing only at index 0, it is
replaced by the agent payer account (signer, writable) and the key list
succeeds. -/
theorem tx02_missing_account_behavior (ray : RaydiumEnv) (pv : Option PubKey)
    (rawIx : RawSwapInstruction) (bh : String) (pa : PubKey)
    (hpa : rawIx.programAddress = some pa) :
    ((∃ (i : Nat) (mi : Option RawAccountMeta),
        0 < i ∧ rawIx.accounts[i]? = some mi ∧ metaPubkey mi = none) →
      isErr (tx02ExecuteSkill ray pv (fun _ => rawIx) bh) = true) ∧
    (∀ (m0 : Option RawAccountMeta), rawIx.accounts[0]? = some m0 →
     metaPubkey m0 = none →
     (∀ (i : Nat) (mi : Option RawAccountMeta), 0 < i →
        rawIx.accounts[i]? = some mi → metaPubkey mi ≠ none) →
      ∃ rest, tx02SwapKeys (pv.getD defaultPayerPubkey) rawIx.accounts =
        Except.ok ({ pubkey := pv.getD defaultPayerPubkey, isSigner := true,
                     isWritable := true } :: rest)) := by
  constructor
  · intro h
    obtain ⟨i, mi, hi0, hi, hnone⟩ := h
    apply tx02ExecuteSkill_swapKeys_err ray pv rawIx bh pa hpa
    exact tx02SwapKeysFrom_missing_err (pv.getD defaultPayerPubkey) rawIx.accounts 0
      ⟨i, mi, hi, hnone, by omega⟩
  · intro m0 h0 hnone0 hall
    cases hacc : rawIx.accounts with
    | nil => rw [hacc] at h0; simp at h0
    | cons m rest0 =>
        rw [hacc] at h0
        simp only [List.getElem?_cons_zero, Option.some.injEq] at h0
        subst h0
        have hA : tx02SwapKeyAt (pv.getD defaultPayerPubkey) 0 m =
            Except.ok { pubkey := pv.getD defaultPayerPubkey, isSigner := true,
                        isWritable := true } := by
          cases m with
          | none => rfl
          | some mm =>
              have hp : mm.pubkey = none := by simpa [metaPubkey] using hnone0
              simp [tx02SwapKeyAt, hp]
        obtain ⟨l2, hl2⟩ := tx02SwapKeysFrom_all_present (pv.getD defaultPayerPubkey)
          rest0 1 (fun j mj hj =>
            hall (j + 1) mj (by omega) (by rw [hacc]; simpa using hj))
        refine ⟨l2, ?_⟩
        simp [tx02SwapKeys, tx02SwapKeysFrom, hA, hl2]

/-- Witness for C6: a missing entry at index 1 makes tx_02 throw, and a
missing entry only at index 0 is replaced by the agent payer account. -/
theorem tx02_missing_account_behavior_witness :
    isErr (tx02ExecuteSkill sampleRaydium none (fun _ => contrastRawIx "Prog") "bh1")
        = true ∧
    (∃ rest, tx02SwapKeys defaultPayerPubkey rawMissingHead.accounts =
      Except.ok ({ pubkey := defaultPayerPubkey, isSigner := true,
                   isWritable := true } :: rest)) := by
  constructor
  · exact (tx02_missing_account_behavior sampleRaydium none (contrastRawIx "Prog")
      "bh1" "Prog" rfl).1 ⟨1, none, by decide, by decide, rfl⟩
  · exact (tx02_missing_account_behavior sampleRaydium none rawMissingHead
      "bh1" "Prog" rfl).2 none (by decide) rfl (fun i mi hpos hi => by
        have hcase : i = 1 ∨ 2 ≤ i := by omega
        rcases hcase with h1 | h2
        · subst h1
          simp only [rawMissingHead, List.getElem?_cons_succ,
            List.getElem?_cons_zero, Option.some.injEq] at hi
          subst hi
          decide
        · have hnone2 : rawMissingHead.accounts[i]? = none :=
            List.getElem?_eq_none (by simp [rawMissingHead]; omega)
          rw [hnone2] at hi
          simp at hi)

/-- Claim C9: tx_05 silently drops every account entry lacking a pubkey —
the resulting swap instruction holds exactly the remaining entries, in
order — and never throws for it, so on an account list with a missing entry
at a nonzero index tx_05 returns a transaction while tx_02 throws. -/
theorem tx05_filtering_contract (agent : PubKey)
    (accounts : List (Option RawAccountMeta)) (ray : RaydiumEnv)
    (pv : Option PubKey) (rawIx : RawSwapInstruction) (bh : String) (pa : PubKey)
    (hpa : rawIx.programAddress = some pa) :
    ((tx05SwapKeys agent accounts).map AccountMeta.pubkey
        = accounts.filterMap metaPubkey) ∧
    (∃ s, tx05ExecuteSkill ray pv (fun _ => rawIx) bh = Except.ok s ∧
      ({ programId := pa, keys := tx05SwapKeys (pv.getD defaultPayerPubkey)
           rawIx.accounts, data := rawIx.data } : Instruction)
        ∈ s.tx.instructions) ∧
    isErr (tx02ExecuteSkill ray pv (fun _ => contrastRawIx pa) bh) = true ∧
    isErr (tx05ExecuteSkill ray pv (fun _ => contrastRawIx pa) bh) = false := by
  refine ⟨tx05SwapKeys_pubkeys agent accounts,
    tx05ExecuteSkill_swapIx_mem ray pv rawIx bh pa hpa, ?_,
    tx05ExecuteSkill_not_err ray pv (contrastRawIx pa) bh pa rfl⟩
  apply tx02ExecuteSkill_swapKeys_err ray pv (contrastRawIx pa) bh pa rfl
  apply tx02SwapKeysFrom_missing_err
  exact ⟨1, none, by simp [contrastRawIx], rfl, by omega⟩

/-- Witness for C9 at concrete inputs. -/
theorem tx05_filtering_contract_witness :
    ((tx05SwapKeys "AG" [some agentRawEntry, none]).map AccountMeta.pubkey
      = [some agentRawEntry, none].filterMap metaPubkey) ∧
    isErr (tx02ExecuteSkill sampleRaydium none (fun _ => contrastRawIx "P9") "bh1")
        = true ∧
    isErr (tx05ExecuteSkill sampleRaydium none (fun _ => contrastRawIx "P9") "bh1")
        = false := by
  have h := tx05_filtering_contract "AG" [some agentRawEntry, none]
    sampleRaydium none (contrastRawIx "P9") "bh1" "P9" rfl
  exact ⟨h.1, h.2.2.1, h.2.2.2⟩

/-- Claim C10: in the swap key lists built by tx_02 and tx_05, every key
equal to the agent public key is marked signer and writable, whatever flags
the SDK reported. -/
theorem swap_agent_flags (agent : PubKey) (accounts : List (Option RawAccountMeta)) :
    (∀ l, tx02SwapKeys agent accounts = Except.ok l →
      ∀ k ∈ l, k.pubkey = agent → k.isSigner = true ∧ k.isWritable = true) ∧
    (∀ k ∈ tx05SwapKeys agent accounts, k.pubkey = agent →
      k.isSigner = true ∧ k.isWritable = true) :=
  ⟨fun l h => tx02SwapKeysFrom_agent_flags agent accounts 0 l h,
   tx05SwapKeys_agent_flags agent accounts⟩

/-- Witness for C10: an agent entry reported by the SDK as neither signer
nor writable ends up signer and writable. -/
theorem swap_agent_flags_witness :
    ({ pubkey := "AG", isSigner := true, isWritable := true } : AccountMeta).isSigner
        = true ∧
    ({ pubkey := "AG", isSigner := true, isWritable := true } : AccountMeta).isWritable
        = true :=
  (swap_agent_flags "AG" [some agentRawEntry]).2
    { pubkey := "AG", isSigner := true, isWritable := true } (by decide) rfl

end Surfpool
